import Mathlib

/-!
Shallow embedding of the CMS Data Agent (`src/cms_agent.py`).

The agent is a state machine over a `DataUpdateStatus` record plus a small
file-system abstraction (the persisted status file, the canonical snapshot
file, and a count of transport calls issued through the downloader).
Timestamps are modelled as natural-number ticks (one tick = one hour, so
`timedelta(hours=h)` is the number `h`); `datetime.min` is tick `0`.
The transport client (`APIDataDownloader.download_json_data`) catches every
exception and returns a boolean, so each call is modelled by a boolean
outcome plus, on success, the content it wrote.
-/

namespace CMSAgent

/-- Python `datetime` modelled as a natural-number tick count (hours). -/
abbrev DateTime := Nat

/-- `datetime.min`, the sentinel used before the first successful fetch. -/
def datetimeMin : DateTime := 0

/-- `DataUpdateStatus` dataclass from `cms_agent.py`. -/
structure DataUpdateStatus where
  last_check : DateTime
  last_update : DateTime
  current_record_count : Int
  previous_record_count : Int
  update_available : Bool
  last_error : Option String
deriving Repr, DecidableEq

/-- A snapshot record: a Python dict with string keys and string values. -/
abbrev Record := List (String × String)

/-- The agent's observable state: the in-memory status, the persisted copy
(`agent_status.json`; `none` before the first save), the canonical snapshot
file as `(mtime, parse result)` (`none` when absent, `some (t, none)` when
present but unparseable), and the number of transport calls issued so far. -/
structure AgentState where
  status : DataUpdateStatus
  persisted : Option DataUpdateStatus
  snapshot : Option (DateTime × Option (List Record))
  transportCalls : Nat
deriving Repr, DecidableEq

/-- `_save_status`: overwrite the persisted record with the given status and
make it the in-memory status. -/
def save (s : AgentState) (st : DataUpdateStatus) : AgentState :=
  { s with status := st, persisted := some st }

/-- `_load_status`: the stored status file is `none` when missing and
`some none` when present but unparseable; either way the default record is
returned (the parse exception is caught and logged, never propagated —
`loadStatus` is a total function). -/
def loadStatus (stored : Option (Option DataUpdateStatus)) (now : DateTime) :
    DataUpdateStatus :=
  match stored with
  | some (some r) => r
  | _ =>
    { last_check := now
      last_update := datetimeMin
      current_record_count := 0
      previous_record_count := 0
      update_available := true
      last_error := none }

/-- Environment of one `check_for_updates` call: whether the count probe's
transport call returns `True`, the parse of the scratch file
(`int(count_data[0]['expression'])`; `none` when reading or parsing raises),
whether `os.remove` of the scratch file succeeds, and the probe time. -/
structure ProbeEnv where
  transportOk : Bool
  countParse : Option Int
  removeOk : Bool
  now : DateTime
deriving Repr, DecidableEq

/-- `CMSDataAgent.check_for_updates`: probe the source record count.
The transport call is issued first (one transport call in every case); a
`False` transport result sets `last_error` and returns `False`; a failure
while reading/parsing the scratch count, or while removing it, lands in the
blanket `except` which sets `last_error`, persists and returns `False`.
Only after the scratch file is removed are the counts rotated, the flag
recomputed, `last_check` advanced and `last_error` cleared. -/
def check_for_updates (env : ProbeEnv) (s : AgentState) : Bool × AgentState :=
  let s1 : AgentState := { s with transportCalls := s.transportCalls + 1 }
  if !env.transportOk then
    (false, save s1 { s1.status with last_error := some "Failed to check record count" })
  else
    match env.countParse with
    | none =>
      (false, save s1
        { s1.status with last_error := some "Error checking for updates: count parse failed" })
    | some newCount =>
      if !env.removeOk then
        (false, save s1
          { s1.status with last_error := some "Error checking for updates: temp file removal failed" })
      else
        let prev := s1.status.current_record_count
        let st : DataUpdateStatus :=
          { last_check := env.now
            last_update := s1.status.last_update
            current_record_count := newCount
            previous_record_count := prev
            update_available := decide (newCount > prev)
            last_error := none }
        (st.update_available, save s1 st)

/-- A probe environment in which every step succeeds and the parsed count
is `c`. -/
def okProbe (c : Int) (now : DateTime) : ProbeEnv :=
  { transportOk := true, countParse := some c, removeOk := true, now := now }

/-- A sequence of all-successful `check_for_updates` calls with the given
probed source counts, run left to right. -/
def runProbes (cs : List Int) (now : DateTime) (s : AgentState) : AgentState :=
  cs.foldl (fun st c => (check_for_updates (okProbe c now) st).2) s

/-- Environment of one `download_latest_data` call: whether the full-extract
transport call returns `True`, the records it writes to the canonical
snapshot path on success, and the fetch time. -/
structure FetchEnv where
  transportOk : Bool
  fetched : List Record
  now : DateTime
deriving Repr, DecidableEq

/-- `CMSDataAgent.download_latest_data`: with `force` false and
`update_available` false it returns `True` immediately with no transport
call and no state change.  Otherwise one transport call is issued; on
success the snapshot file is overwritten with the fetched records (mtime =
fetch time), `last_update` advances, `update_available` clears,
`last_error` clears and the status is persisted; on failure (a `False`
transport result or an exception, both of which set `last_error`, persist
and return `False`) the snapshot and the counts are untouched. -/
def download_latest_data (force : Bool) (env : FetchEnv) (s : AgentState) :
    Bool × AgentState :=
  if !force && !s.status.update_available then
    (true, s)
  else
    let s1 : AgentState := { s with transportCalls := s.transportCalls + 1 }
    if env.transportOk then
      let s2 : AgentState := { s1 with snapshot := some (env.now, some env.fetched) }
      (true, save s2
        { s2.status with
            last_update := env.now
            update_available := false
            last_error := none })
    else
      (false, save s1 { s1.status with last_error := some "Failed to download data" })

/-- Reading the canonical snapshot file (`json.load` in `get_latest_data`):
returns the records when the file exists and parses, `none` otherwise (the
parse exception is caught and `None` returned). -/
def loadSnapshot (s : AgentState) : Option (List Record) :=
  match s.snapshot with
  | some (_, some data) => some data
  | _ => none

/-- `CMSDataAgent.get_latest_data`: decide `needs_update` from the snapshot's
presence and age (`now - mtime > timedelta(hours=max_age_hours)`); when
needed, run `check_for_updates`, and when the probe reports an update or the
snapshot file is (still) absent, run `download_latest_data()` — with the
default `force=False`.  A failed download returns `none`; otherwise the
snapshot file is read and returned (`none` when absent or unparseable).
Returns the result together with the final agent state. -/
def get_latest_data (max_age_hours : Nat) (now : DateTime) (probe : ProbeEnv)
    (fetch : FetchEnv) (s : AgentState) : Option (List Record) × AgentState :=
  let needs_update : Bool :=
    match s.snapshot with
    | none => true
    | some (mtime, _) => decide (mtime + max_age_hours < now)
  if needs_update then
    let r1 := check_for_updates probe s
    let s1 := r1.2
    if r1.1 || s1.snapshot.isNone then
      let r2 := download_latest_data false fetch s1
      if !r2.1 then (none, r2.2)
      else (loadSnapshot r2.2, r2.2)
    else (loadSnapshot s1, s1)
  else (loadSnapshot s, s)

/-- Python values appearing in the dict returned by `validate_data`. -/
inductive PyVal where
  | b : Bool → PyVal
  | i : Int → PyVal
  | str : String → PyVal
  | q : Rat → PyVal
deriving Repr, DecidableEq

/-- `'key' in record`. -/
def hasKey (r : Record) (k : String) : Bool :=
  (r.lookup k).isSome

/-- `record.get(key, '')`. -/
def getD (r : Record) (k : String) : String :=
  (r.lookup k).getD ""

/-- Truthiness of `record.get(key)`: the key is present with a non-empty
string value. -/
def truthyGet (r : Record) (k : String) : Bool :=
  match r.lookup k with
  | some v => v ≠ ""
  | none => false

def ccnKey : String := "cms_certification_number_ccn"

def ratingKey : String := "hhcahps_survey_summary_star_rating"

/-- `CMSDataAgent.validate_data` as a function of the snapshot file
(`none` absent, `some none` present but unparseable) and its size in bytes;
returns the Python dict as an ordered key/value list.  The first 10 records
are sampled for the two required keys; ratings that are truthy are checked
against the fixed allowed set; `unique_providers` counts distinct
`ccn` values (with `''` for missing). -/
def validate_data (snapshot : Option (Option (List Record))) (sizeBytes : Nat) :
    List (String × PyVal) :=
  match snapshot with
  | none => [("valid", PyVal.b false), ("error", PyVal.str "Data file not found")]
  | some none => [("valid", PyVal.b false), ("error", PyVal.str "JSON parse error")]
  | some (some data) =>
    let record_count : Int := data.length
    let has_required_fields : Bool :=
      (data.take 10).all fun r => hasKey r ccnKey && hasKey r ratingKey
    let ratings : List String :=
      (data.filter fun r => truthyGet r ratingKey).map fun r => getD r ratingKey
    let valid_ratings : Bool :=
      ratings.all fun r => ["1", "2", "3", "4", "5", ""].contains r
    let unique_providers : Int := ((data.map fun r => getD r ccnKey).dedup).length
    [("valid", PyVal.b true),
     ("record_count", PyVal.i record_count),
     ("has_required_fields", PyVal.b has_required_fields),
     ("valid_ratings", PyVal.b valid_ratings),
     ("unique_providers", PyVal.i unique_providers),
     ("file_size_mb", PyVal.q ((sizeBytes : Rat) / 1048576))]

/-- The number of records among the first 10 sampled that lack one of the
two required keys (the quantity claim C9's "diagnostic" would report;
`validate_data` itself never computes it). -/
def missingFieldCount (data : List Record) : Nat :=
  ((data.take 10).filter fun r => !(hasKey r ccnKey && hasKey r ratingKey)).length

/-- The agent state of a fresh deployment: default status (no persisted
record), no persisted file, no snapshot, no transport calls issued yet. -/
def s0 : AgentState :=
  { status := loadStatus none 0
    persisted := none
    snapshot := none
    transportCalls := 0 }

/-! ### Helper lemmas -/

/-- One all-successful probe rotates the counts, stamps `last_check`,
recomputes the flag and clears the error. -/
lemma check_ok_status (c : Int) (now : DateTime) (s : AgentState) :
    (check_for_updates (okProbe c now) s).2.status =
      { last_check := now
        last_update := s.status.last_update
        current_record_count := c
        previous_record_count := s.status.current_record_count
        update_available := decide (c > s.status.current_record_count)
        last_error := none } := rfl

lemma runProbes_nil (now : DateTime) (s : AgentState) : runProbes [] now s = s := rfl

lemma runProbes_concat (cs : List Int) (c : Int) (now : DateTime) (s : AgentState) :
    runProbes (cs ++ [c]) now s =
      (check_for_updates (okProbe c now) (runProbes cs now s)).2 := by
  simp [runProbes, List.foldl_append]

/-- After a run of all-successful probes, `current_record_count` is the last
probed count (or the starting value when the run is empty). -/
lemma runProbes_current (cs : List Int) (now : DateTime) (s : AgentState) :
    (runProbes cs now s).status.current_record_count =
      cs.getLast?.getD s.status.current_record_count := by
  induction cs using List.reverseRecOn with
  | nil => rfl
  | append_singleton t a _ =>
    rw [runProbes_concat, check_ok_status, List.getLast?_concat]
    rfl

/-! ### C1 — monotonic count rotation and update-available correctness -/

/-- C1: for any sequence of all-successful `check_for_updates` calls with
probed counts `cs`, after the `(k+1)`-st call (0-based `k`),
`current_record_count` is the `k`-th probed count, `previous_record_count`
is the count probed just before it (the starting baseline for the first
call), and `update_available` equals
`current_record_count > previous_record_count`. -/
theorem count_rotation_correct (cs : List Int) (k : Nat) (hk : k < cs.length)
    (now : DateTime) (s : AgentState) :
    (runProbes (cs.take (k + 1)) now s).status.current_record_count = cs.getD k 0 ∧
    (runProbes (cs.take (k + 1)) now s).status.previous_record_count =
      ((cs.take k).getLast?).getD s.status.current_record_count ∧
    (runProbes (cs.take (k + 1)) now s).status.update_available =
      decide ((runProbes (cs.take (k + 1)) now s).status.current_record_count >
        (runProbes (cs.take (k + 1)) now s).status.previous_record_count) := by
  have htake : cs.take (k + 1) = cs.take k ++ [cs.getD k 0] := by
    rw [List.take_succ, List.getElem?_eq_getElem hk, List.getD_eq_getElem cs 0 hk]
    rfl
  rw [htake, runProbes_concat, check_ok_status]
  exact ⟨rfl, runProbes_current _ _ _, rfl⟩

/-- Witness for C1: counts `[3, 5]`, second call (`k = 1`), starting from
the fresh state. -/
theorem count_rotation_correct_witness :
    1 < ([3, 5] : List Int).length ∧
    ((runProbes (([3, 5] : List Int).take 2) 7 s0).status.current_record_count =
        ([3, 5] : List Int).getD 1 0 ∧
      (runProbes (([3, 5] : List Int).take 2) 7 s0).status.previous_record_count =
        ((([3, 5] : List Int).take 1).getLast?).getD s0.status.current_record_count ∧
      (runProbes (([3, 5] : List Int).take 2) 7 s0).status.update_available =
        decide ((runProbes (([3, 5] : List Int).take 2) 7 s0).status.current_record_count >
          (runProbes (([3, 5] : List Int).take 2) 7 s0).status.previous_record_count)) :=
  ⟨by decide, count_rotation_correct [3, 5] 1 (by decide) 7 s0⟩

/-! ### C2 — failure isolation of `check_for_updates` -/

/-- C2: a transport, parse, or I/O failure during `check_for_updates` makes
it return false, set `last_error` to a message, persist the status, and
leave both record counts exactly as they were before the call. -/
theorem check_failure_isolation (env : ProbeEnv) (s : AgentState)
    (hfail : env.transportOk = false ∨ env.countParse = none ∨ env.removeOk = false) :
    (check_for_updates env s).1 = false ∧
    ((check_for_updates env s).2.status.last_error).isSome = true ∧
    (check_for_updates env s).2.persisted = some (check_for_updates env s).2.status ∧
    (check_for_updates env s).2.status.current_record_count =
      s.status.current_record_count ∧
    (check_for_updates env s).2.status.previous_record_count =
      s.status.previous_record_count := by
  cases ht : env.transportOk with
  | false => simp [check_for_updates, save, ht]
  | true =>
    cases hc : env.countParse with
    | none => simp [check_for_updates, save, ht, hc]
    | some c =>
      cases hr : env.removeOk with
      | false => simp [check_for_updates, save, ht, hc, hr]
      | true => rcases hfail with h | h | h <;> simp_all

/-- Witness for C2: a probe whose transport call fails, on the fresh state. -/
theorem check_failure_isolation_witness :
    ((⟨false, none, true, 5⟩ : ProbeEnv).transportOk = false ∨
      (⟨false, none, true, 5⟩ : ProbeEnv).countParse = none ∨
      (⟨false, none, true, 5⟩ : ProbeEnv).removeOk = false) ∧
    ((check_for_updates ⟨false, none, true, 5⟩ s0).1 = false ∧
      ((check_for_updates ⟨false, none, true, 5⟩ s0).2.status.last_error).isSome = true ∧
      (check_for_updates ⟨false, none, true, 5⟩ s0).2.persisted =
        some (check_for_updates ⟨false, none, true, 5⟩ s0).2.status ∧
      (check_for_updates ⟨false, none, true, 5⟩ s0).2.status.current_record_count =
        s0.status.current_record_count ∧
      (check_for_updates ⟨false, none, true, 5⟩ s0).2.status.previous_record_count =
        s0.status.previous_record_count) :=
  ⟨Or.inl rfl, check_failure_isolation ⟨false, none, true, 5⟩ s0 (Or.inl rfl)⟩

/-! ### C10 — a failed probe changes nothing but `last_error` -/

/-- C10: a `check_for_updates` call that fails returns false and leaves
every `DataUpdateStatus` field other than `last_error` unchanged — in
particular `update_available` and `last_check` keep their prior values, so
a true flag set by an earlier successful probe survives failed probes. -/
theorem check_failure_frame (env : ProbeEnv) (s : AgentState)
    (hfail : env.transportOk = false ∨ env.countParse = none ∨ env.removeOk = false) :
    (check_for_updates env s).1 = false ∧
    (check_for_updates env s).2.status.last_check = s.status.last_check ∧
    (check_for_updates env s).2.status.last_update = s.status.last_update ∧
    (check_for_updates env s).2.status.current_record_count =
      s.status.current_record_count ∧
    (check_for_updates env s).2.status.previous_record_count =
      s.status.previous_record_count ∧
    (check_for_updates env s).2.status.update_available =
      s.status.update_available := by
  cases ht : env.transportOk with
  | false => simp [check_for_updates, save, ht]
  | true =>
    cases hc : env.countParse with
    | none => simp [check_for_updates, save, ht, hc]
    | some c =>
      cases hr : env.removeOk with
      | false => simp [check_for_updates, save, ht, hc, hr]
      | true => rcases hfail with h | h | h <;> simp_all

/-- Witness for C10: a probe whose count parse raises, after an earlier
successful probe (count 9) has set `update_available := true`. -/
theorem check_failure_frame_witness :
    ((⟨true, none, true, 6⟩ : ProbeEnv).transportOk = false ∨
      (⟨true, none, true, 6⟩ : ProbeEnv).countParse = none ∨
      (⟨true, none, true, 6⟩ : ProbeEnv).removeOk = false) ∧
    ((check_for_updates ⟨true, none, true, 6⟩ (runProbes [9] 4 s0)).1 = false ∧
      (check_for_updates ⟨true, none, true, 6⟩ (runProbes [9] 4 s0)).2.status.last_check =
        (runProbes [9] 4 s0).status.last_check ∧
      (check_for_updates ⟨true, none, true, 6⟩ (runProbes [9] 4 s0)).2.status.last_update =
        (runProbes [9] 4 s0).status.last_update ∧
      (check_for_updates ⟨true, none, true, 6⟩
          (runProbes [9] 4 s0)).2.status.current_record_count =
        (runProbes [9] 4 s0).status.current_record_count ∧
      (check_for_updates ⟨true, none, true, 6⟩
          (runProbes [9] 4 s0)).2.status.previous_record_count =
        (runProbes [9] 4 s0).status.previous_record_count ∧
      (check_for_updates ⟨true, none, true, 6⟩ (runProbes [9] 4 s0)).2.status.update_available =
        (runProbes [9] 4 s0).status.update_available) :=
  ⟨Or.inr (Or.inl rfl),
    check_failure_frame ⟨true, none, true, 6⟩ (runProbes [9] 4 s0) (Or.inr (Or.inl rfl))⟩

/-! ### C4 — postcondition of a successful snapshot fetch -/

/-- C4: whenever `download_latest_data` actually issues a fetch (because
`force` is set or `update_available` is true) and the transport call
succeeds, afterwards `last_update` is the fetch time, `update_available` is
false, `last_error` is cleared, the status is persisted, and the call
returns true — with no hypothesis on the two record counts, which may well
be equal. -/
theorem fetch_success_postcondition (force : Bool) (env : FetchEnv) (s : AgentState)
    (hrun : force = true ∨ s.status.update_available = true)
    (hok : env.transportOk = true) :
    (download_latest_data force env s).1 = true ∧
    (download_latest_data force env s).2.status.last_update = env.now ∧
    (download_latest_data force env s).2.status.update_available = false ∧
    (download_latest_data force env s).2.status.last_error = none ∧
    (download_latest_data force env s).2.persisted =
      some (download_latest_data force env s).2.status := by
  rcases hrun with h | h <;> simp [download_latest_data, save, h, hok]

/-- Witness for C4: a forced fetch from the fresh state, whose two record
counts are equal (both zero). -/
theorem fetch_success_postcondition_witness :
    ((true : Bool) = true ∨ s0.status.update_available = true) ∧
    s0.status.current_record_count = s0.status.previous_record_count ∧
    ((download_latest_data true ⟨true, [], 8⟩ s0).1 = true ∧
      (download_latest_data true ⟨true, [], 8⟩ s0).2.status.last_update =
        (⟨true, [], 8⟩ : FetchEnv).now ∧
      (download_latest_data true ⟨true, [], 8⟩ s0).2.status.update_available = false ∧
      (download_latest_data true ⟨true, [], 8⟩ s0).2.status.last_error = none ∧
      (download_latest_data true ⟨true, [], 8⟩ s0).2.persisted =
        some (download_latest_data true ⟨true, [], 8⟩ s0).2.status) :=
  ⟨Or.inl rfl, rfl,
    fetch_success_postcondition true ⟨true, [], 8⟩ s0 (Or.inl rfl) rfl⟩

/-! ### C5 — fetch idempotence (corrected) -/

/-- C5 counterexample: from the fresh state (whose `update_available`
default is true) with a failing transport, two consecutive
`download_latest_data(force=False)` calls with no intervening
`check_for_updates` issue TWO transport calls, and the second call returns
false — refuting "at most one network fetch and the second call returns
true" as an unconditional property. -/
theorem fetch_idempotence_counterexample :
    (download_latest_data false ⟨false, [], 5⟩
        (download_latest_data false ⟨false, [], 5⟩ s0).2).2.transportCalls =
      s0.transportCalls + 2 ∧
    (download_latest_data false ⟨false, [], 5⟩
        (download_latest_data false ⟨false, [], 5⟩ s0).2).1 = false := by
  decide

/-- C5 amended: when `update_available` is false,
`download_latest_data(force=False)` is a no-op returning true with no
transport call; and provided the first of two consecutive
`download_latest_data(force=False)` calls returns true (a failed first
fetch leaves the flag set, so the second call retries), the pair performs
at most one network fetch and the second call returns true. -/
theorem fetch_idempotence_amended (s : AgentState) (e1 e2 : FetchEnv)
    (h : (download_latest_data false e1 s).1 = true) :
    (download_latest_data false e2
        (download_latest_data false e1 s).2).2.transportCalls ≤
      s.transportCalls + 1 ∧
    (download_latest_data false e2 (download_latest_data false e1 s).2).1 = true ∧
    (s.status.update_available = false → download_latest_data false e1 s = (true, s)) := by
  cases hb : s.status.update_available with
  | false =>
    refine ⟨?_, ?_, fun _ => ?_⟩ <;> simp [download_latest_data, hb]
  | true =>
    cases he : e1.transportOk with
    | false => simp [download_latest_data, hb, he] at h
    | true =>
      refine ⟨?_, ?_, fun hcontra => ?_⟩
      · simp [download_latest_data, save, hb, he]
      · simp [download_latest_data, save, hb, he]
      · exact absurd hcontra (by simp)

/-- Witness for C5 (amended): first call from the fresh state fetches
successfully, the second is a no-op. -/
theorem fetch_idempotence_amended_witness :
    (download_latest_data false ⟨true, [], 3⟩ s0).1 = true ∧
    ((download_latest_data false ⟨false, [], 9⟩
        (download_latest_data false ⟨true, [], 3⟩ s0).2).2.transportCalls ≤
      s0.transportCalls + 1 ∧
    (download_latest_data false ⟨false, [], 9⟩
        (download_latest_data false ⟨true, [], 3⟩ s0).2).1 = true ∧
    (s0.status.update_available = false →
      download_latest_data false ⟨true, [], 3⟩ s0 = (true, s0))) :=
  ⟨by decide, fetch_idempotence_amended s0 ⟨true, [], 3⟩ ⟨false, [], 9⟩ (by decide)⟩

/-! ### C6 — defaulting of a missing or corrupt status record -/

/-- C6: `_load_status` on a missing or unparseable persisted record returns
the default record (`last_check = now`, `last_update = datetime.min`, both
counts zero, `update_available = true`, no error); being a total Lean
function it propagates no error to the caller. -/
theorem load_status_default (stored : Option (Option DataUpdateStatus)) (now : DateTime)
    (h : stored = none ∨ stored = some none) :
    loadStatus stored now =
      { last_check := now
        last_update := datetimeMin
        current_record_count := 0
        previous_record_count := 0
        update_available := true
        last_error := none } := by
  rcases h with h | h <;> subst h <;> rfl

/-- Witness for C6: an unparseable (corrupt) persisted record. -/
theorem load_status_default_witness :
    ((some none : Option (Option DataUpdateStatus)) = none ∨
      (some none : Option (Option DataUpdateStatus)) = some none) ∧
    loadStatus (some none) 11 =
      { last_check := 11
        last_update := datetimeMin
        current_record_count := 0
        previous_record_count := 0
        update_available := true
        last_error := none } :=
  ⟨Or.inr rfl, load_status_default (some none) 11 (Or.inr rfl)⟩

/-! ### C7 — stale snapshot with no new records is served from cache -/

/-- C7: when the snapshot exists (and parses) but is older than
`max_age_hours`, and the freshness probe succeeds with a count no larger
than the current one (so it reports no update), `get_latest_data` skips the
snapshot fetch (exactly one transport call — the probe's — is issued and
the snapshot file is untouched) and still returns the stale snapshot's
contents. -/
theorem stale_cache_served (s : AgentState) (mtime : DateTime) (data : List Record)
    (max_age_hours now : Nat) (c : Int) (fetch : FetchEnv)
    (hsnap : s.snapshot = some (mtime, some data))
    (hstale : mtime + max_age_hours < now)
    (hc : c ≤ s.status.current_record_count) :
    (get_latest_data max_age_hours now (okProbe c now) fetch s).1 = some data ∧
    (get_latest_data max_age_hours now (okProbe c now) fetch s).2.transportCalls =
      s.transportCalls + 1 ∧
    (get_latest_data max_age_hours now (okProbe c now) fetch s).2.snapshot =
      s.snapshot := by
  have hflag : decide (c > s.status.current_record_count) = false :=
    decide_eq_false (not_lt.mpr hc)
  simp [get_latest_data, check_for_updates, okProbe, save, loadSnapshot, hsnap, hstale, hflag]

/-- A state with a parseable snapshot of mtime 2 and a status whose current
count is 4 (equal to the previous count), used as the C7 witness input. -/
def sStale : AgentState :=
  { status :=
      { last_check := 0, last_update := 2, current_record_count := 4,
        previous_record_count := 4, update_available := false, last_error := none }
    persisted := none
    snapshot := some (2, some [[("k", "v")]])
    transportCalls := 0 }

/-- Witness for C7: `sStale` probed again with count 4 at time 6 under
staleness tolerance 3. -/
theorem stale_cache_served_witness :
    (sStale.snapshot = some (2, some [[("k", "v")]]) ∧
      2 + 3 < 6 ∧
      (4 : Int) ≤ sStale.status.current_record_count) ∧
    ((get_latest_data 3 6 (okProbe 4 6) ⟨true, [], 6⟩ sStale).1 = some [[("k", "v")]] ∧
      (get_latest_data 3 6 (okProbe 4 6) ⟨true, [], 6⟩ sStale).2.transportCalls =
        sStale.transportCalls + 1 ∧
      (get_latest_data 3 6 (okProbe 4 6) ⟨true, [], 6⟩ sStale).2.snapshot =
        sStale.snapshot) :=
  ⟨⟨rfl, by decide, by decide⟩,
    stale_cache_served sStale 2 [[("k", "v")]] 3 6 4 ⟨true, [], 6⟩ rfl (by decide) (by decide)⟩

/-! ### C3 — absent snapshot does NOT trigger a forced fetch (code bug) -/

/-- A state exhibiting the C3 failing input: no snapshot on disk,
`update_available` true from an earlier probe that saw the count grow to 5. -/
def sAbsent : AgentState :=
  { status :=
      { last_check := 1, last_update := 0, current_record_count := 5,
        previous_record_count := 0, update_available := true, last_error := none }
    persisted := none
    snapshot := none
    transportCalls := 0 }

/-- C3 failing input, evaluated: with the snapshot absent and a probe that
succeeds reporting an unchanged count (5, so `update_available` becomes
false), `get_latest_data` issues NO snapshot fetch even though the fetch
transport would succeed — only the probe's single transport call happens,
the snapshot stays absent, and the call returns `none`.  The claim (and the
spec) say the Snapshot Fetcher runs in forced mode whenever the snapshot is
absent; the code calls `download_latest_data()` without `force=True`
(`cms_agent.py` line 272), so the no-op short-circuit swallows the fetch. -/
theorem absent_snapshot_fetch_skipped :
    (get_latest_data 24 30 (okProbe 5 30) ⟨true, [[("k", "v")]], 30⟩ sAbsent).1 = none ∧
    (get_latest_data 24 30 (okProbe 5 30) ⟨true, [[("k", "v")]], 30⟩
        sAbsent).2.transportCalls = 1 ∧
    (get_latest_data 24 30 (okProbe 5 30) ⟨true, [[("k", "v")]], 30⟩
        sAbsent).2.snapshot = none := by
  decide

/-! ### C8 — scratch-file discard failure is fatal, not best-effort (corrected) -/

/-- C8 counterexample: a probe whose transport and count parse succeed
(count 7) but whose scratch-file removal fails returns false with the
counts NOT rotated (current stays 0, not 7) and `last_error` set — refuting
the claim that the probe still rotates the counts, recomputes the flag,
clears `last_error` and returns `update_available`. -/
theorem scratch_discard_counterexample :
    (check_for_updates ⟨true, some 7, false, 5⟩ s0).1 = false ∧
    (check_for_updates ⟨true, some 7, false, 5⟩ s0).2.status.current_record_count = 0 ∧
    (check_for_updates ⟨true, some 7, false, 5⟩ s0).2.status.previous_record_count = 0 ∧
    ((check_for_updates ⟨true, some 7, false, 5⟩ s0).2.status.last_error).isSome = true := by
  decide

/-- C8 amended: a failure to delete the scratch count file is FATAL to the
probe — `os.remove` sits inside the `try` before the count rotation — so
the probe does not rotate the counts and does not recompute
`update_available`; it sets `last_error`, persists the status and returns
false. -/
theorem scratch_discard_fatal (env : ProbeEnv) (s : AgentState)
    (ht : env.transportOk = true) (hp : env.countParse.isSome = true)
    (hr : env.removeOk = false) :
    (check_for_updates env s).1 = false ∧
    (check_for_updates env s).2.status.current_record_count =
      s.status.current_record_count ∧
    (check_for_updates env s).2.status.previous_record_count =
      s.status.previous_record_count ∧
    (check_for_updates env s).2.status.update_available = s.status.update_available ∧
    ((check_for_updates env s).2.status.last_error).isSome = true ∧
    (check_for_updates env s).2.persisted = some (check_for_updates env s).2.status := by
  cases hc : env.countParse with
  | none => rw [hc] at hp; simp at hp
  | some c => simp [check_for_updates, save, ht, hc, hr]

/-- Witness for C8 (amended): successful probe transport and parse (count
2), failing removal, from the fresh state after one successful probe. -/
theorem scratch_discard_fatal_witness :
    ((⟨true, some 2, false, 9⟩ : ProbeEnv).transportOk = true ∧
      (⟨true, some 2, false, 9⟩ : ProbeEnv).countParse.isSome = true ∧
      (⟨true, some 2, false, 9⟩ : ProbeEnv).removeOk = false) ∧
    ((check_for_updates ⟨true, some 2, false, 9⟩ (runProbes [3] 1 s0)).1 = false ∧
      (check_for_updates ⟨true, some 2, false, 9⟩
          (runProbes [3] 1 s0)).2.status.current_record_count =
        (runProbes [3] 1 s0).status.current_record_count ∧
      (check_for_updates ⟨true, some 2, false, 9⟩
          (runProbes [3] 1 s0)).2.status.previous_record_count =
        (runProbes [3] 1 s0).status.previous_record_count ∧
      (check_for_updates ⟨true, some 2, false, 9⟩
          (runProbes [3] 1 s0)).2.status.update_available =
        (runProbes [3] 1 s0).status.update_available ∧
      ((check_for_updates ⟨true, some 2, false, 9⟩
          (runProbes [3] 1 s0)).2.status.last_error).isSome = true ∧
      (check_for_updates ⟨true, some 2, false, 9⟩ (runProbes [3] 1 s0)).2.persisted =
        some (check_for_updates ⟨true, some 2, false, 9⟩ (runProbes [3] 1 s0)).2.status) :=
  ⟨⟨rfl, rfl, rfl⟩,
    scratch_discard_fatal ⟨true, some 2, false, 9⟩ (runProbes [3] 1 s0) rfl rfl rfl⟩

/-! ### C9 — validator reports no missing-field count diagnostic (corrected) -/

/-- A parseable 10-record snapshot in which the last 2 records lack the
required rating key (so 2 of the 10 sampled records miss a required
field). -/
def data10 : List Record :=
  [[(ccnKey, "p0"), (ratingKey, "3")],
   [(ccnKey, "p1"), (ratingKey, "3")],
   [(ccnKey, "p2"), (ratingKey, "4")],
   [(ccnKey, "p3"), (ratingKey, "4")],
   [(ccnKey, "p4"), (ratingKey, "5")],
   [(ccnKey, "p5"), (ratingKey, "5")],
   [(ccnKey, "p6"), (ratingKey, "2")],
   [(ccnKey, "p7"), (ratingKey, "1")],
   [(ccnKey, "p8")],
   [(ccnKey, "p9")]]

/-- C9 counterexample: on a snapshot where exactly 2 of the 10 sampled
records lack a required key, `validate_data` does return `valid = true` and
`has_required_fields = false`, but its result carries NO diagnostic listing
the missing-field count: the result's keys are exactly the six fixed ones
and no value in it is the number 2 (= `missingFieldCount data10`). -/
theorem validator_no_missing_count_diagnostic :
    missingFieldCount data10 = 2 ∧
    (validate_data (some (some data10)) 100).lookup "valid" = some (PyVal.b true) ∧
    (validate_data (some (some data10)) 100).lookup "has_required_fields" =
      some (PyVal.b false) ∧
    (validate_data (some (some data10)) 100).map Prod.fst =
      ["valid", "record_count", "has_required_fields", "valid_ratings",
       "unique_providers", "file_size_mb"] ∧
    ∀ kv ∈ validate_data (some (some data10)) 100,
      kv.2 ≠ PyVal.i (missingFieldCount data10) := by
  decide

/-- C9 amended: whenever some of the first 10 sampled records of a
parseable snapshot lack a required key, `validate_data` returns
`valid = true` and `has_required_fields = false`; no missing-field count is
reported — the result's keys are exactly the six fixed diagnostics, with
only the boolean `has_required_fields` describing the required-field
check. -/
theorem validator_missing_fields (data : List Record) (sizeBytes : Nat)
    (h : ((data.take 10).any fun r => !(hasKey r ccnKey && hasKey r ratingKey)) = true) :
    (validate_data (some (some data)) sizeBytes).lookup "valid" = some (PyVal.b true) ∧
    (validate_data (some (some data)) sizeBytes).lookup "has_required_fields" =
      some (PyVal.b false) ∧
    (validate_data (some (some data)) sizeBytes).map Prod.fst =
      ["valid", "record_count", "has_required_fields", "valid_ratings",
       "unique_providers", "file_size_mb"] := by
  have hall : ((data.take 10).all fun r => hasKey r ccnKey && hasKey r ratingKey) = false := by
    rcases List.any_eq_true.mp h with ⟨r, hr, hpr⟩
    refine List.all_eq_false.mpr ⟨r, hr, ?_⟩
    simp only [Bool.not_eq_true'] at hpr
    simp [hpr]
  refine ⟨rfl, ?_, rfl⟩
  simp [validate_data, hall, List.lookup]

/-- Witness for C9 (amended): the 10-record snapshot `data10`, 2 of whose
first 10 records lack the rating key. -/
theorem validator_missing_fields_witness :
    ((data10.take 10).any fun r => !(hasKey r ccnKey && hasKey r ratingKey)) = true ∧
    ((validate_data (some (some data10)) 64).lookup "valid" = some (PyVal.b true) ∧
      (validate_data (some (some data10)) 64).lookup "has_required_fields" =
        some (PyVal.b false) ∧
      (validate_data (some (some data10)) 64).map Prod.fst =
        ["valid", "record_count", "has_required_fields", "valid_ratings",
         "unique_providers", "file_size_mb"]) :=
  ⟨by decide, validator_missing_fields data10 64 (by decide)⟩

end CMSAgent
